import Mathlib

/-!
Verification of the VRL bytecode VM (`src/lib/vrl/compiler/src/vm/machine.rs`)
and the kind finder (`src/lib/value/src/kind/find.rs`) against their
natural-language specification.  Definitions are shallow embeddings of the
Rust source; parts of the repository that are referenced by the embedded
files but whose sources are not included (the `Kind`/`Collection` data
definitions, the `VmState` fetch helpers of `state.rs`, and the `Value`
arithmetic of the `value` crate) are modelled from the specification and
marked as such in their doc comments.
-/

set_option maxRecDepth 4000

namespace VectorSpec

/-! ### Kind model (`lib/value/src/kind`)

The kind finder in `find.rs` is part of `src/`; the `Kind`, `Collection`
and `Unknown` data definitions it operates on are not.  They are modelled
from the specification (§3): a `Kind` is a set of possible shapes (seven
scalar bits plus optional object/array collection shapes), a collection
carries a known map from key to `Kind` plus an optional unknown
descriptor, and the unknown descriptor either resolves to an exact kind or
to a recursive kind requiring widening. -/

/-- A path segment as used by the kind finder: a field, a coalesce list of
fields, or a (possibly negative) integer index. -/
inductive Segment where
  | field (name : String)
  | coalesce (names : List String)
  | index (i : Int)
deriving DecidableEq

mutual

/-- Modelled from the spec: a `Kind` is a set of possible value shapes —
seven scalar bits (bytes, integer, float, boolean, timestamp, regex, null)
plus an optional object collection shape and an optional array collection
shape (§3 *Kind*). -/
inductive Kind where
  | mk (bytes integer float boolean timestamp regex null : Bool)
       (object : Option ObjCollection) (array : Option ArrCollection)

/-- Modelled from the spec: an object collection carries a known mapping
from field name to `Kind` and an optional unknown descriptor (§3
*Collection*). -/
inductive ObjCollection where
  | mk (known : List (String × Kind)) (unknown : Option KUnknown)

/-- Modelled from the spec: an array collection carries a known mapping
from non-negative index to `Kind` and an optional unknown descriptor (§3
*Collection*). -/
inductive ArrCollection where
  | mk (known : List (Nat × Kind)) (unknown : Option KUnknown)

/-- Modelled from the spec: the unknown descriptor of a collection either
resolves to an exact `Kind` (uniform tail) or to a recursive `Kind`
requiring widening (§3 *Collection*). -/
inductive KUnknown where
  | exact (kind : Kind)
  | infinite (kind : Kind)

end

def Kind.bytes : Kind → Bool
  | .mk b _ _ _ _ _ _ _ _ => b

def Kind.integer : Kind → Bool
  | .mk _ i _ _ _ _ _ _ _ => i

def Kind.float : Kind → Bool
  | .mk _ _ f _ _ _ _ _ _ => f

def Kind.boolean : Kind → Bool
  | .mk _ _ _ b _ _ _ _ _ => b

def Kind.timestamp : Kind → Bool
  | .mk _ _ _ _ t _ _ _ _ => t

def Kind.regex : Kind → Bool
  | .mk _ _ _ _ _ r _ _ _ => r

def Kind.null : Kind → Bool
  | .mk _ _ _ _ _ _ n _ _ => n

def Kind.object : Kind → Option ObjCollection
  | .mk _ _ _ _ _ _ _ o _ => o

def Kind.array : Kind → Option ArrCollection
  | .mk _ _ _ _ _ _ _ _ a => a

def ObjCollection.known : ObjCollection → List (String × Kind)
  | .mk k _ => k

def ObjCollection.unknown : ObjCollection → Option KUnknown
  | .mk _ u => u

def ArrCollection.known : ArrCollection → List (Nat × Kind)
  | .mk k _ => k

def ArrCollection.unknown : ArrCollection → Option KUnknown
  | .mk _ u => u

/-- Modelled from the spec: a `Kind` is *exact* iff exactly one shape bit
is set (§3 *Kind*). -/
def Kind.is_exact (k : Kind) : Bool :=
  (([k.bytes, k.integer, k.float, k.boolean, k.timestamp, k.regex, k.null,
     k.object.isSome, k.array.isSome].filter (fun b => b)).length == 1)

/-- Modelled from the spec: `or_null()` joins the null bit (§3 *Kind*). -/
def Kind.or_null : Kind → Kind
  | .mk b i f bo t r _ o a => .mk b i f bo t r true o a

/-- Modelled from the spec: `Unknown::as_exact` returns the kind when the
unknown descriptor resolves to an exact kind. -/
def KUnknown.as_exact : KUnknown → Option Kind
  | .exact k => Option.some k
  | .infinite _ => Option.none

/-- Modelled from the spec: `Unknown::to_kind` returns the underlying kind
of the unknown descriptor. -/
def KUnknown.to_kind : KUnknown → Kind
  | .exact k => k
  | .infinite k => k

/-- The `InnerKind` helper enum local to `Kind::find_at_path`
(find.rs lines 31-34). -/
inductive InnerKind where
  | exact (kind : Kind)
  | infinite (kind : Kind)

/-- The helper `get_field_from_object` (find.rs lines 45-62): look the field up in
the known map of the object; on miss fall back to the unknown descriptor. -/
def get_field_from_object (kind : Kind) (field : String) : Option InnerKind :=
  match kind.object with
  | Option.none => Option.none
  | Option.some collection =>
    match collection.known.lookup field with
    | Option.some k => Option.some (InnerKind.exact k)
    | Option.none =>
      match collection.unknown with
      | Option.none => Option.none
      | Option.some unknown =>
        match unknown.as_exact with
        | Option.some k => Option.some (InnerKind.exact k)
        | Option.none => Option.some (InnerKind.infinite unknown.to_kind)

/-- The helper `get_element_from_array` (find.rs lines 71-85): the array analogue of
`get_field_from_object`. -/
def get_element_from_array (kind : Kind) (index : Nat) : Option InnerKind :=
  match kind.array with
  | Option.none => Option.none
  | Option.some collection =>
    match collection.known.lookup index with
    | Option.some k => Option.some (InnerKind.exact k)
    | Option.none =>
      match collection.unknown with
      | Option.none => Option.none
      | Option.some unknown =>
        match unknown.as_exact with
        | Option.some k => Option.some (InnerKind.exact k)
        | Option.none => Option.some (InnerKind.infinite unknown.to_kind)

/-- The error type of `find_at_path` (find.rs lines 11-14). -/
inductive FindError where
  | negativeIndexPath
deriving DecidableEq

/-- Totalised per-segment dispatch of the loop body of `find_at_path`
(find.rs lines 103-156): descending a segment either misses (the source
returns `Ok(None)`), hits a negative index (the source returns the
error), descends into an exact kind, or stops at an infinite unknown
kind. -/
inductive DescendResult where
  | missing
  | negative
  | exact (kind : Kind)
  | infinite (kind : Kind)

/-- The per-segment match of `find_at_path` (find.rs lines 103-156).  A
`Field` segment consults `get_field_from_object`; a `Coalesce` segment
first picks the first field that is a *known* key of the object
(find.rs lines 118-126) and then consults `get_field_from_object`; an
`Index` segment rejects negative indices and consults
`get_element_from_array`. -/
def descendSeg (kind : Kind) (segment : Segment) : DescendResult :=
  match segment with
  | .field f =>
    match get_field_from_object kind f with
    | Option.none => .missing
    | Option.some (.exact k) => .exact k
    | Option.some (.infinite k) => .infinite k
  | .coalesce fields =>
    match kind.object with
    | Option.none => .missing
    | Option.some collection =>
      match fields.find? (fun f => (collection.known.lookup f).isSome) with
      | Option.none => .missing
      | Option.some f =>
        match get_field_from_object kind f with
        | Option.none => .missing
        | Option.some (.exact k) => .exact k
        | Option.some (.infinite k) => .infinite k
  | .index i =>
    if i < 0 then .negative
    else
      match get_element_from_array kind i.toNat with
      | Option.none => .missing
      | Option.some (.exact k) => .exact k
      | Option.some (.infinite k) => .infinite k

/-- Null-widening applied on the early and final returns of
`find_at_path` (find.rs lines 113, 136, 152, 159-163). -/
def widen (ornull : Bool) (kind : Kind) : Kind :=
  if ornull then kind.or_null else kind

/-- The main loop of `Kind::find_at_path` (find.rs lines 95-163), with the
`or_null` flag threaded as an accumulator: at each segment the flag is set
when the current kind is not exact, then the segment is dispatched; an
infinite unknown terminates early, returning the (possibly null-widened)
kind. -/
def findLoop : Kind → List Segment → Bool → Except FindError (Option Kind)
  | kind, [], ornull => .ok (Option.some (widen ornull kind))
  | kind, segment :: rest, ornull =>
    let ornull := ornull || !kind.is_exact
    match descendSeg kind segment with
    | .missing => .ok Option.none
    | .negative => .error .negativeIndexPath
    | .exact k => findLoop k rest ornull
    | .infinite k => .ok (Option.some (widen ornull k))

/-- The method `Kind::find_at_path` (find.rs lines 27-164): the root path returns the
kind itself (lines 87-89); otherwise the segment loop runs with the
`or_null` flag initially false. -/
def find_at_path (kind : Kind) (path : List Segment) : Except FindError (Option Kind) :=
  if path.isEmpty then .ok (Option.some kind)
  else findLoop kind path false

/-- Whether a path contains a negative integer index segment. -/
def containsNegativeIndex (path : List Segment) : Bool :=
  path.any (fun s =>
    match s with
    | .index i => decide (i < 0)
    | _ => false)

/-- The loop of `find_at_path` with the null-widening removed: it returns
the reached kind exactly as stored.  Used to state that, along an
all-exact traversal, `find_at_path` performs no widening. -/
def findRaw : Kind → List Segment → Except FindError (Option Kind)
  | kind, [] => .ok (Option.some kind)
  | kind, segment :: rest =>
    match descendSeg kind segment with
    | .missing => .ok Option.none
    | .negative => .error .negativeIndexPath
    | .exact k => findRaw k rest
    | .infinite k => .ok (Option.some k)

/-- All kinds visited by the loop of `find_at_path` (the root and every
intermediate kind a segment is applied to) are exact. -/
def allExactAlong : Kind → List Segment → Bool
  | _, [] => true
  | kind, segment :: rest =>
    kind.is_exact &&
      (match descendSeg kind segment with
       | .exact k => allExactAlong k rest
       | _ => true)

/-- The null bit of the kind that `findRaw` reaches (false when the path
misses or errors). -/
def rawNull (kind : Kind) (path : List Segment) : Bool :=
  match findRaw kind path with
  | .ok (Option.some k) => k.null
  | _ => false

/-! ### Value model (`lib/vrl/compiler` / `lib/value`)

The VM of `machine.rs` is part of `src/`; the `Value` data type and its
arithmetic (`try_add` … `try_le`, `eq_lossy`, `try_bytes`) live in the
`value` crate, which is not, so they are modelled from the specification
(§3 *Value*, §4.1).  Byte strings are modelled as Lean `String`s (the
spec treats Bytes as an opaque byte string and the only conversion the VM
performs is the UTF-8-lossy key coercion, which is the identity in this
model); float payloads are opaque and modelled as integers — no claim
depends on float-specific arithmetic. -/

/-- Modelled from the spec: the tagged value variants of §3 *Value*. -/
inductive Value where
  | null
  | boolean (b : Bool)
  | integer (i : Int)
  | float (f : Int)
  | bytes (s : String)
  | regex (r : String)
  | timestamp (t : Int)
  | array (items : List Value)
  | object (fields : List (String × Value))

mutual

/-- Modelled from the spec: lossy equality (§4.1) — numeric kinds are
coerced across Integer/Float, Bytes compare byte-wise, Null equals only
Null, and aggregates compare element-wise. -/
def eq_lossy : Value → Value → Bool
  | Value.null, Value.null => true
  | Value.boolean a, Value.boolean b => a == b
  | Value.integer a, Value.integer b => a == b
  | Value.integer a, Value.float b => a == b
  | Value.float a, Value.integer b => a == b
  | Value.float a, Value.float b => a == b
  | Value.bytes a, Value.bytes b => a == b
  | Value.regex a, Value.regex b => a == b
  | Value.timestamp a, Value.timestamp b => a == b
  | Value.array a, Value.array b => eqLossyList a b
  | Value.object a, Value.object b => eqLossyFields a b
  | _, _ => false

def eqLossyList : List Value → List Value → Bool
  | [], [] => true
  | x :: xs, y :: ys => eq_lossy x y && eqLossyList xs ys
  | _, _ => false

def eqLossyFields : List (String × Value) → List (String × Value) → Bool
  | [], [] => true
  | (ka, va) :: xs, (kb, vb) :: ys => ka == kb && eq_lossy va vb && eqLossyFields xs ys
  | _, _ => false

end

/-- Ordered insert-or-replace, mirroring `BTreeMap::insert`: the map is
kept sorted by key and an existing binding for the key is replaced. -/
def insertField : List (String × Value) → String → Value → List (String × Value)
  | [], key, value => [(key, value)]
  | (k, v) :: rest, key, value =>
    match compare key k with
    | Ordering.lt => (key, value) :: (k, v) :: rest
    | Ordering.eq => (key, value) :: rest
    | Ordering.gt => (k, v) :: insertField rest key value

/-- Modelled from the spec: `Value::try_add` (§4.1) — defined on numeric
pairs and on Bytes concatenation, failing otherwise. -/
def try_add : Value → Value → Except String Value
  | Value.integer a, Value.integer b => .ok (.integer (a + b))
  | Value.integer a, Value.float b => .ok (.float (a + b))
  | Value.float a, Value.integer b => .ok (.float (a + b))
  | Value.float a, Value.float b => .ok (.float (a + b))
  | Value.bytes a, Value.bytes b => .ok (.bytes (a ++ b))
  | _, _ => .error "unable to add values"

/-- Modelled from the spec: `Value::try_sub` (§4.1). -/
def try_sub : Value → Value → Except String Value
  | Value.integer a, Value.integer b => .ok (.integer (a - b))
  | Value.integer a, Value.float b => .ok (.float (a - b))
  | Value.float a, Value.integer b => .ok (.float (a - b))
  | Value.float a, Value.float b => .ok (.float (a - b))
  | _, _ => .error "unable to subtract values"

/-- Modelled from the spec: `Value::try_mul` (§4.1). -/
def try_mul : Value → Value → Except String Value
  | Value.integer a, Value.integer b => .ok (.integer (a * b))
  | Value.integer a, Value.float b => .ok (.float (a * b))
  | Value.float a, Value.integer b => .ok (.float (a * b))
  | Value.float a, Value.float b => .ok (.float (a * b))
  | _, _ => .error "unable to multiply values"

/-- Modelled from the spec: `Value::try_div` (§4.1) — division by zero
fails. -/
def try_div : Value → Value → Except String Value
  | Value.integer a, Value.integer b =>
    if b = 0 then .error "cannot divide by zero" else .ok (.integer (a / b))
  | Value.integer a, Value.float b =>
    if b = 0 then .error "cannot divide by zero" else .ok (.float (a / b))
  | Value.float a, Value.integer b =>
    if b = 0 then .error "cannot divide by zero" else .ok (.float (a / b))
  | Value.float a, Value.float b =>
    if b = 0 then .error "cannot divide by zero" else .ok (.float (a / b))
  | _, _ => .error "unable to divide values"

/-- Modelled from the spec: `Value::try_rem` (§4.1) — modulo by zero
fails. -/
def try_rem : Value → Value → Except String Value
  | Value.integer a, Value.integer b =>
    if b = 0 then .error "cannot take remainder by zero" else .ok (.integer (a % b))
  | Value.integer a, Value.float b =>
    if b = 0 then .error "cannot take remainder by zero" else .ok (.float (a % b))
  | Value.float a, Value.integer b =>
    if b = 0 then .error "cannot take remainder by zero" else .ok (.float (a % b))
  | Value.float a, Value.float b =>
    if b = 0 then .error "cannot take remainder by zero" else .ok (.float (a % b))
  | _, _ => .error "unable to take remainder of values"

/-- Modelled from the spec: `Value::try_merge` (§4.1) — defined only on
Object × Object, right keys overwrite left. -/
def try_merge : Value → Value → Except String Value
  | Value.object a, Value.object b =>
    .ok (Value.object (b.foldl (fun acc kv => insertField acc kv.1 kv.2) a))
  | _, _ => .error "unable to merge values"

/-- Modelled from the spec: numeric comparison used by the ordering
operations of §4.1, coercing across Integer/Float. -/
def cmpNum : Value → Value → Option Ordering
  | Value.integer a, Value.integer b => Option.some (compare a b)
  | Value.integer a, Value.float b => Option.some (compare a b)
  | Value.float a, Value.integer b => Option.some (compare a b)
  | Value.float a, Value.float b => Option.some (compare a b)
  | _, _ => Option.none

/-- Modelled from the spec: `Value::try_gt` (§4.1). -/
def try_gt (a b : Value) : Except String Value :=
  match cmpNum a b with
  | Option.some o => .ok (Value.boolean (o == Ordering.gt))
  | Option.none => .error "unable to compare values"

/-- Modelled from the spec: `Value::try_ge` (§4.1). -/
def try_ge (a b : Value) : Except String Value :=
  match cmpNum a b with
  | Option.some o => .ok (Value.boolean (o != Ordering.lt))
  | Option.none => .error "unable to compare values"

/-- Modelled from the spec: `Value::try_lt` (§4.1). -/
def try_lt (a b : Value) : Except String Value :=
  match cmpNum a b with
  | Option.some o => .ok (Value.boolean (o == Ordering.lt))
  | Option.none => .error "unable to compare values"

/-- Modelled from the spec: `Value::try_le` (§4.1). -/
def try_le (a b : Value) : Except String Value :=
  match cmpNum a b with
  | Option.some o => .ok (Value.boolean (o != Ordering.gt))
  | Option.none => .error "unable to compare values"

/-- Modelled from the spec: `Value::try_bytes` succeeds exactly on the
Bytes variant.  `machine.rs` unwraps its result when building object keys
(line 332). -/
def try_bytes : Value → Option String
  | Value.bytes s => Option.some s
  | _ => Option.none

/-- Modelled from the spec: `String::from_utf8_lossy` — the identity in
this model, since byte strings are modelled as Lean strings (§4.5
*CreateObject*). -/
def from_utf8_lossy (s : String) : String := s

/-! ### Paths, variables and the host context -/

/-- A segment of a runtime value path (§3 *Variable*). -/
inductive PathSegment where
  | field (name : String)
  | index (i : Nat)
deriving DecidableEq

/-- The `Variable` target descriptor (§3 *Variable*): external target
path, internal variable with optional sub-path, top-of-stack with
sub-path, or the sink. -/
inductive Variable where
  | external (path : List PathSegment)
  | internal (ident : String) (path : Option (List PathSegment))
  | stack (path : List PathSegment)
  | none
deriving DecidableEq

/-- Modelled from the spec: `Value::get_by_path` — traverse the sub-path
in the value, `None` when a segment misses (§4.6). -/
def get_by_path : Value → List PathSegment → Option Value
  | v, [] => Option.some v
  | Value.object fields, PathSegment.field f :: rest =>
    match fields.lookup f with
    | Option.some v => get_by_path v rest
    | Option.none => Option.none
  | Value.array items, PathSegment.index i :: rest =>
    match items[i]? with
    | Option.some v => get_by_path v rest
    | Option.none => Option.none
  | _, _ => Option.none

/-- Modelled from the spec: `Value::at_path` — scaffold a fresh value from
the sub-path with the payload at the leaf (§4.6 *SetPath*). -/
def at_path (value : Value) : List PathSegment → Value
  | [] => value
  | PathSegment.field f :: rest => Value.object [(f, at_path value rest)]
  | PathSegment.index i :: rest =>
    Value.array (List.replicate i Value.null ++ [at_path value rest])

/-- Modelled from the spec: `Value::insert_by_path` — update an existing
value at the sub-path, scaffolding missing structure (§4.6 *SetPath*). -/
def insert_by_path : Value → List PathSegment → Value → Value
  | _, [], v => v
  | Value.object fields, PathSegment.field f :: rest, v =>
    match fields.lookup f with
    | Option.some inner => Value.object (insertField fields f (insert_by_path inner rest v))
    | Option.none => Value.object (insertField fields f (at_path v rest))
  | Value.array items, PathSegment.index i :: rest, v =>
    match items[i]? with
    | Option.some inner => Value.array (items.set i (insert_by_path inner rest v))
    | Option.none =>
      Value.array (items ++ List.replicate (i - items.length) Value.null
        ++ [at_path v rest])
  | _, seg :: rest, v => at_path v (seg :: rest)

/-- Update-or-append on a string-keyed association list, mirroring a
hash-map insert. -/
def upsert : List (String × Value) → String → Value → List (String × Value)
  | [], key, value => [(key, value)]
  | (k, v) :: rest, key, value =>
    if k == key then (key, value) :: rest else (k, v) :: upsert rest key value

/-- Update-or-append on a path-keyed association list (model of the host
event target). -/
def upsertPath :
    List (List PathSegment × Value) → List PathSegment → Value →
    List (List PathSegment × Value)
  | [], key, value => [(key, value)]
  | (k, v) :: rest, key, value =>
    if k == key then (key, value) :: rest else (k, v) :: upsertPath rest key value

/-- Modelled from the spec: the host context (§6) — the external event
target and the per-invocation variable store.  The host target is
modelled as a path-keyed association (host behaviour is external to the
core; no claim exercises it) and host calls never fail in this model. -/
structure Context where
  targetData : List (List PathSegment × Value)
  varStore : List (String × Value)

/-- Modelled from the spec: `ctx.target().get(path)` (§6). -/
def Context.targetGet (ctx : Context) (path : List PathSegment) : Option Value :=
  (ctx.targetData.find? (fun e => e.1 == path)).map (fun e => e.2)

/-- Modelled from the spec: `ctx.state().variable(ident)` (§6). -/
def lookupVariable (ctx : Context) (ident : String) : Option Value :=
  ctx.varStore.lookup ident

/-- Modelled from the spec: `ctx.state_mut().insert_variable` (§6). -/
def insertVariable (ctx : Context) (ident : String) (value : Value) : Context :=
  { ctx with varStore := upsert ctx.varStore ident value }

/-- The helper `set_variable` (machine.rs lines 431-462): internal variables are
inserted or updated (scaffolding by sub-path when absent), external paths
go to the host target, and `None`/`Stack` targets are silently
ignored. -/
def set_variable (ctx : Context) (var : Variable) (value : Value) : Context :=
  match var with
  | Variable.internal ident pathOpt =>
    match pathOpt with
    | Option.none => insertVariable ctx ident value
    | Option.some path =>
      match lookupVariable ctx ident with
      | Option.some stored => insertVariable ctx ident (insert_by_path stored path value)
      | Option.none => insertVariable ctx ident (at_path value path)
  | Variable.external path =>
    { ctx with targetData := upsertPath ctx.targetData path value }
  | Variable.none => ctx
  | Variable.stack _ => ctx

/-! ### Errors, functions and the bytecode container -/

/-- The `ExpressionError` surfaced by the interpreter (§7): an abort with
a source span, or a structured error with message, labels and notes.
Fetch errors are represented as structured errors, as in the source where
they are built from plain strings. -/
inductive ExpressionError where
  | abort (start stop : Nat)
  | error (message : String) (labels : List String) (notes : List String)

/-- Modelled from the spec: the display form of an error, used by
`SetPathInfallible` to stringify the pending error (§9 *Infallible
stringification*). -/
def ExpressionError.toDisplay : ExpressionError → String
  | .abort _ _ => "aborted"
  | .error message _ _ => message

/-- A slot of the parameter stack: an owned value or a borrowed reference
into the static-parameter table (`VmArgument` of `argument_list.rs`). -/
inductive VmArgument where
  | value (v : Value)
  | any (idx : Nat)

/-- Modelled from the spec: a host-registered function (§6 *Function
contract*) — an identifier, a parameter descriptor list (only the arity
is observable to the interpreter), and a body combining
`check_arguments` and `call`. -/
structure VmFunction where
  identifier : String
  parameters : List String
  call : List (Option VmArgument) → Except ExpressionError Value

/-- A slot of the instruction stream: an opcode or a primitive
(machine.rs lines 42-46). -/
inductive OpCode where
  | abort
  | ret
  | constant
  | negate
  | add
  | subtract
  | multiply
  | divide
  | rem
  | merge
  | not
  | greater
  | greaterEqual
  | less
  | lessEqual
  | notEqual
  | equal
  | pop
  | clearError
  | jumpIfFalse
  | jumpIfTrue
  | jumpIfNotErr
  | jump
  | setPathInfallible
  | setPath
  | getPath
  | call
  | createArray
  | createObject
  | emptyParameter
  | moveParameter
  | moveStatic
deriving DecidableEq

inductive Instruction where
  | opcode (code : OpCode)
  | primitive (n : Nat)
deriving DecidableEq

/-- The bytecode container `Vm` (machine.rs lines 48-55).  The
static-parameter table holds opaque `dyn Any` boxes; only its length is
observable to the interpreter, so the model keeps the count. -/
structure Vm where
  fns : List VmFunction
  instructions : List Instruction
  values : List Value
  targets : List Variable
  staticParamCount : Nat

/-- The method `Vm::add_constant` (machine.rs lines 65-68). -/
def Vm.add_constant (vm : Vm) (object : Value) : Vm × Nat :=
  ({ vm with values := vm.values ++ [object] }, vm.values.length)

/-- The method `Vm::write_chunk` (machine.rs lines 70-72). -/
def Vm.write_chunk (vm : Vm) (code : OpCode) : Vm :=
  { vm with instructions := vm.instructions ++ [Instruction.opcode code] }

/-- The method `Vm::write_primitive` (machine.rs lines 82-84). -/
def Vm.write_primitive (vm : Vm) (code : Nat) : Vm :=
  { vm with instructions := vm.instructions ++ [Instruction.primitive code] }

/-- The method `Vm::write_primitive_at` (machine.rs lines 86-88). -/
def Vm.write_primitive_at (vm : Vm) (pos : Nat) (code : Nat) : Vm :=
  { vm with instructions := vm.instructions.set pos (Instruction.primitive code) }

/-- The value `usize::MAX`, the placeholder written by `emit_jump`. -/
def USIZE_MAX : Nat := 2 ^ 64 - 1

/-- The method `Vm::emit_jump` (machine.rs lines 123-130): write the opcode followed
by the placeholder primitive and return the index of the placeholder. -/
def Vm.emit_jump (vm : Vm) (instruction : OpCode) : Vm × Nat :=
  let vm := vm.write_chunk instruction
  let vm := vm.write_primitive USIZE_MAX
  (vm, vm.instructions.length - 1)

/-- The method `Vm::patch_jump` (machine.rs lines 136-139): overwrite the
placeholder with `instructions.len() - offset - 1`. -/
def Vm.patch_jump (vm : Vm) (offset : Nat) : Vm :=
  vm.write_primitive_at offset (vm.instructions.length - offset - 1)

/-- The method `Vm::get_target` (machine.rs lines 95-103): linear scan for an equal
target, appending when absent. -/
def Vm.get_target (vm : Vm) (target : Variable) : Vm × Nat :=
  match vm.targets.findIdx? (fun t => t == target) with
  | Option.some pos => (vm, pos)
  | Option.none => ({ vm with targets := vm.targets ++ [target] }, vm.targets.length)

/-! ### VM state and fetch helpers -/

/-- The per-invocation VM state (§4.4): instruction pointer, operand
stack (head is top of stack), parameter stack (kept in push order, most
recent last, mirroring the `Vec` drained from its tail by `Call`), and
the error register. -/
structure VmState where
  instruction_pointer : Nat
  stack : List Value
  parameter_stack : List (Option VmArgument)
  error : Option ExpressionError

def VmState.new : VmState :=
  { instruction_pointer := 0, stack := [], parameter_stack := [], error := Option.none }

/-- Modelled from the spec: fetch helper `next_opcode` of §4.4 (`state.rs`
is not under `src/`) — read the instruction at the IP as an opcode,
advance the IP, error if it is not an opcode. -/
def VmState.next (vm : Vm) (s : VmState) : Except ExpressionError (OpCode × VmState) :=
  match vm.instructions[s.instruction_pointer]? with
  | Option.some (Instruction.opcode op) =>
    .ok (op, { s with instruction_pointer := s.instruction_pointer + 1 })
  | _ => .error (ExpressionError.error "expected opcode" [] [])

/-- Modelled from the spec: fetch helper `next_primitive` of §4.4 — read
the instruction at the IP as a primitive, advance the IP, error if it is
not a primitive. -/
def VmState.next_primitive (vm : Vm) (s : VmState) : Except ExpressionError (Nat × VmState) :=
  match vm.instructions[s.instruction_pointer]? with
  | Option.some (Instruction.primitive n) =>
    .ok (n, { s with instruction_pointer := s.instruction_pointer + 1 })
  | _ => .error (ExpressionError.error "expected primitive" [] [])

/-- Modelled from the spec: `pop_stack` of §4.4 — fail with "stack
underflow" when empty. -/
def VmState.pop_stack (s : VmState) : Except ExpressionError (Value × VmState) :=
  match s.stack with
  | v :: rest => .ok (v, { s with stack := rest })
  | [] => .error (ExpressionError.error "stack underflow" [] [])

/-- Modelled from the spec: `peek_stack` of §4.4. -/
def VmState.peek_stack (s : VmState) : Except ExpressionError Value :=
  match s.stack with
  | v :: _ => .ok v
  | [] => .error (ExpressionError.error "stack underflow" [] [])

def VmState.push_stack (s : VmState) (v : Value) : VmState :=
  { s with stack := v :: s.stack }

/-- The helper `is_true` (machine.rs lines 464-466). -/
def is_true : Value → Bool
  | Value.boolean true => true
  | _ => false

/-- The helper `binary_op` (machine.rs lines 411-428): when the error register is
empty, pop rhs then lhs and apply the operation, pushing the result on
success and storing the error in the register on failure; when the error
register is non-empty, do nothing. -/
def binary_op (s : VmState) (f : Value → Value → Except String Value) :
    Except ExpressionError VmState :=
  if s.error.isNone then
    match s.pop_stack with
    | .error e => .error e
    | .ok (rhs, s) =>
      match s.pop_stack with
      | .error e => .error e
      | .ok (lhs, s) =>
        match f lhs rhs with
        | .ok value => .ok (s.push_stack value)
        | .error err =>
          .ok { s with error := Option.some (ExpressionError.error err [] []) }
  else
    .ok s

/-! ### The interpreter loop (one observable step per opcode)

`Vm::interpret` (machine.rs lines 146-407) is a loop that fetches and
dispatches one opcode per iteration.  The embedding factors it into a
`step` function executing exactly one iteration and a fuelled loop.  One
iteration ends in one of four ways: the run continues with a new state
and context, the run finishes with a value (`Return`), the run fails with
an `ExpressionError` (`Abort`, fetch errors, host errors), or the process
panics — out-of-range slot indexing (`self.targets[..]`,
`self.values[..]`, `self.fns[..]`, `self.static_params[..]`), the
`CreateObject` key unwrap, and the `Abort`-from-function invariant
violation are Rust panics, not `Err` returns. -/

inductive StepOutcome where
  | running (s : VmState) (ctx : Context)
  | finished (v : Value) (ctx : Context)
  | failed (e : ExpressionError) (ctx : Context)
  | panicked

/-- Dispatch of the ten guarded arithmetic/comparison opcodes onto
`binary_op` (machine.rs lines 180-189). -/
def runBinary (ctx : Context) (s : VmState) (f : Value → Value → Except String Value) :
    StepOutcome :=
  match binary_op s f with
  | .ok s => .running s ctx
  | .error e => .failed e ctx

/-- The `CreateObject` pair loop (machine.rs lines 326-335): pop the
value, pop the key, unwrap the key as bytes (a non-Bytes key panics),
coerce it UTF-8-lossily and insert into the object map; popping from an
exhausted stack is a fetch error. -/
inductive ObjLoopResult where
  | ok (fields : List (String × Value)) (rest : List Value)
  | underflow
  | panicked

def createObjectLoop : Nat → List Value → List (String × Value) → ObjLoopResult
  | 0, stack, fields => .ok fields stack
  | Nat.succ n, value :: key :: rest, fields =>
    match try_bytes key with
    | Option.none => .panicked
    | Option.some k => createObjectLoop n rest (insertField fields (from_utf8_lossy k) value)
  | Nat.succ _, _, _ => .underflow

/-- The `CreateArray` pop loop (machine.rs lines 315-317): pop `count`
values, collected in pop order. -/
def popN : Nat → List Value → List Value → Option (List Value × List Value)
  | 0, stack, acc => Option.some (acc, stack)
  | Nat.succ n, v :: rest, acc => popN n rest (acc ++ [v])
  | Nat.succ _, [], _ => Option.none

/-- One iteration of `Vm::interpret` (machine.rs lines 150-406): fetch
the opcode at the instruction pointer and dispatch it. -/
def step (vm : Vm) (ctx : Context) (s : VmState) : StepOutcome :=
  match s.next vm with
  | .error e => .failed e ctx
  | .ok (op, s) =>
    match op with
    | OpCode.abort =>
      match s.next_primitive vm with
      | .error e => .failed e ctx
      | .ok (start, s) =>
        match s.next_primitive vm with
        | .error e => .failed e ctx
        | .ok (stop, _) => .failed (ExpressionError.abort start stop) ctx
    | OpCode.ret => .finished (s.stack.headD Value.null) ctx
    | OpCode.constant =>
      match s.next_primitive vm with
      | .error e => .failed e ctx
      | .ok (slot, s) =>
        match vm.values[slot]? with
        | Option.some v => .running (s.push_stack v) ctx
        | Option.none => .panicked
    | OpCode.negate =>
      match s.stack with
      | [] => .failed (ExpressionError.error "Negating nothing" [] []) ctx
      | Value.float value :: rest =>
        .running { s with stack := Value.float (-value) :: rest } ctx
      | _ :: _ => .failed (ExpressionError.error "Negating non number" [] []) ctx
    | OpCode.not =>
      match s.stack with
      | [] => .failed (ExpressionError.error "Notting nothing" [] []) ctx
      | Value.boolean value :: rest =>
        .running { s with stack := Value.boolean (!value) :: rest } ctx
      | _ :: _ => .failed (ExpressionError.error "Notting non boolean" [] []) ctx
    | OpCode.add => runBinary ctx s try_add
    | OpCode.subtract => runBinary ctx s try_sub
    | OpCode.multiply => runBinary ctx s try_mul
    | OpCode.divide => runBinary ctx s try_div
    | OpCode.rem => runBinary ctx s try_rem
    | OpCode.merge => runBinary ctx s try_merge
    | OpCode.greater => runBinary ctx s try_gt
    | OpCode.greaterEqual => runBinary ctx s try_ge
    | OpCode.less => runBinary ctx s try_lt
    | OpCode.lessEqual => runBinary ctx s try_le
    | OpCode.notEqual =>
      match s.pop_stack with
      | .error e => .failed e ctx
      | .ok (rhs, s) =>
        match s.pop_stack with
        | .error e => .failed e ctx
        | .ok (lhs, s) => .running (s.push_stack (Value.boolean (!eq_lossy lhs rhs))) ctx
    | OpCode.equal =>
      match s.pop_stack with
      | .error e => .failed e ctx
      | .ok (rhs, s) =>
        match s.pop_stack with
        | .error e => .failed e ctx
        | .ok (lhs, s) => .running (s.push_stack (Value.boolean (eq_lossy lhs rhs))) ctx
    | OpCode.pop => .running { s with stack := s.stack.tail } ctx
    | OpCode.clearError => .running { s with error := Option.none } ctx
    | OpCode.jumpIfFalse =>
      match s.next_primitive vm with
      | .error e => .failed e ctx
      | .ok (jump, s) =>
        match s.peek_stack with
        | .error e => .failed e ctx
        | .ok v =>
          if !is_true v then
            .running { s with instruction_pointer := s.instruction_pointer + jump } ctx
          else .running s ctx
    | OpCode.jumpIfTrue =>
      match s.next_primitive vm with
      | .error e => .failed e ctx
      | .ok (jump, s) =>
        match s.peek_stack with
        | .error e => .failed e ctx
        | .ok v =>
          if is_true v then
            .running { s with instruction_pointer := s.instruction_pointer + jump } ctx
          else .running s ctx
    | OpCode.jumpIfNotErr =>
      match s.next_primitive vm with
      | .error e => .failed e ctx
      | .ok (jump, s) =>
        if s.error.isNone then
          .running { s with instruction_pointer := s.instruction_pointer + jump } ctx
        else .running s ctx
    | OpCode.jump =>
      match s.next_primitive vm with
      | .error e => .failed e ctx
      | .ok (jump, s) =>
        .running { s with instruction_pointer := s.instruction_pointer + jump } ctx
    | OpCode.setPath =>
      match s.next_primitive vm with
      | .error e => .failed e ctx
      | .ok (tgt, s) =>
        match vm.targets[tgt]? with
        | Option.none => .panicked
        | Option.some target =>
          match s.pop_stack with
          | .error e => .failed e ctx
          | .ok (value, s) =>
            .running (s.push_stack value) (set_variable ctx target value)
    | OpCode.setPathInfallible =>
      match s.next_primitive vm with
      | .error e => .failed e ctx
      | .ok (okSlot, s) =>
        match vm.targets[okSlot]? with
        | Option.none => .panicked
        | Option.some okTarget =>
          match s.next_primitive vm with
          | .error e => .failed e ctx
          | .ok (errSlot, s) =>
            match vm.targets[errSlot]? with
            | Option.none => .panicked
            | Option.some errTarget =>
              match s.next_primitive vm with
              | .error e => .failed e ctx
              | .ok (defaultSlot, s) =>
                match vm.values[defaultSlot]? with
                | Option.none => .panicked
                | Option.some defaultValue =>
                  match s.error with
                  | Option.some err =>
                    let errValue := Value.bytes err.toDisplay
                    let ctx := set_variable ctx okTarget defaultValue
                    let ctx := set_variable ctx errTarget errValue
                    .running ({ s with error := Option.none }.push_stack errValue) ctx
                  | Option.none =>
                    match s.pop_stack with
                    | .error e => .failed e ctx
                    | .ok (value, s) =>
                      let ctx := set_variable ctx okTarget value
                      let ctx := set_variable ctx errTarget Value.null
                      .running (s.push_stack value) ctx
    | OpCode.getPath =>
      match s.next_primitive vm with
      | .error e => .failed e ctx
      | .ok (tgt, s) =>
        match vm.targets[tgt]? with
        | Option.none => .panicked
        | Option.some target =>
          match target with
          | Variable.external path =>
            .running (s.push_stack ((ctx.targetGet path).getD Value.null)) ctx
          | Variable.internal ident pathOpt =>
            let value :=
              match lookupVariable ctx ident with
              | Option.some value =>
                match pathOpt with
                | Option.some path => (get_by_path value path).getD Value.null
                | Option.none => value
              | Option.none => Value.null
            .running (s.push_stack value) ctx
          | Variable.none => .running (s.push_stack Value.null) ctx
          | Variable.stack path =>
            match s.pop_stack with
            | .error e => .failed e ctx
            | .ok (value, s) =>
              .running (s.push_stack ((get_by_path value path).getD Value.null)) ctx
    | OpCode.call =>
      match s.next_primitive vm with
      | .error e => .failed e ctx
      | .ok (functionId, s) =>
        match s.next_primitive vm with
        | .error e => .failed e ctx
        | .ok (spanStart, s) =>
          match s.next_primitive vm with
          | .error e => .failed e ctx
          | .ok (spanEnd, s) =>
            match vm.fns[functionId]? with
            | Option.none => .panicked
            | Option.some fn =>
              let len := s.parameter_stack.length
              if fn.parameters.length > len then .panicked
              else
                let args := s.parameter_stack.drop (len - fn.parameters.length)
                let s := { s with
                  parameter_stack := s.parameter_stack.take (len - fn.parameters.length) }
                match fn.call args with
                | .ok result => .running (s.push_stack result) ctx
                | .error (ExpressionError.abort _ _) => .panicked
                | .error (ExpressionError.error message labels notes) =>
                  .running { s with error := Option.some (ExpressionError.error
                      ("function call error for \"" ++ fn.identifier ++ "\" at ("
                        ++ toString spanStart ++ ":" ++ toString spanEnd ++ "): "
                        ++ message) labels notes) } ctx
    | OpCode.createArray =>
      match s.next_primitive vm with
      | .error e => .failed e ctx
      | .ok (count, s) =>
        match popN count s.stack [] with
        | Option.none => .failed (ExpressionError.error "stack underflow" [] []) ctx
        | Option.some (arr, rest) =>
          .running { s with stack := Value.array arr.reverse :: rest } ctx
    | OpCode.createObject =>
      match s.next_primitive vm with
      | .error e => .failed e ctx
      | .ok (count, s) =>
        match createObjectLoop count s.stack [] with
        | ObjLoopResult.underflow =>
          .failed (ExpressionError.error "stack underflow" [] []) ctx
        | ObjLoopResult.panicked => .panicked
        | ObjLoopResult.ok fields rest =>
          .running { s with stack := Value.object fields :: rest } ctx
    | OpCode.emptyParameter =>
      .running { s with parameter_stack := s.parameter_stack ++ [Option.none] } ctx
    | OpCode.moveParameter =>
      match s.stack with
      | v :: rest =>
        .running { s with stack := rest, parameter_stack := s.parameter_stack ++ [Option.some (VmArgument.value v)] } ctx
      | [] =>
        .running { s with parameter_stack := s.parameter_stack ++ [Option.none] } ctx
    | OpCode.moveStatic =>
      match s.next_primitive vm with
      | .error e => .failed e ctx
      | .ok (idx, s) =>
        if idx < vm.staticParamCount then
          .running { s with
            parameter_stack := s.parameter_stack ++ [Option.some (VmArgument.any idx)] } ctx
        else .panicked

/-- The outcome of a whole interpreter run.  Jump offsets are always
added to the instruction pointer, so every step strictly advances it and
`instructions.length + 1` iterations always suffice; `outOfFuel` is
unreachable for the fuel `interpret` supplies. -/
inductive RunResult where
  | ok (v : Value) (ctx : Context)
  | err (e : ExpressionError) (ctx : Context)
  | panicked
  | outOfFuel

def RunResult.isErr : RunResult → Bool
  | .err _ _ => true
  | _ => false

def interpretLoop (vm : Vm) : Nat → Context → VmState → RunResult
  | 0, _, _ => .outOfFuel
  | Nat.succ fuel, ctx, s =>
    match step vm ctx s with
    | .running s ctx => interpretLoop vm fuel ctx s
    | .finished v ctx => .ok v ctx
    | .failed e ctx => .err e ctx
    | .panicked => .panicked

/-- The method `Vm::interpret` (machine.rs lines 146-407): run the step loop from a
fresh `VmState`. -/
def interpret (vm : Vm) (ctx : Context) : RunResult :=
  interpretLoop vm (vm.instructions.length + 1) ctx VmState.new

/-! ### Concrete programs and auxiliary definitions used by the claims -/

/-- The value operation dispatched by each guarded binary opcode
(machine.rs lines 180-189); `none` for every opcode that is not one of
the ten guarded arithmetic/comparison opcodes. -/
def guardedImpl : OpCode → Option (Value → Value → Except String Value)
  | OpCode.add => Option.some try_add
  | OpCode.subtract => Option.some try_sub
  | OpCode.multiply => Option.some try_mul
  | OpCode.divide => Option.some try_div
  | OpCode.rem => Option.some try_rem
  | OpCode.merge => Option.some try_merge
  | OpCode.greater => Option.some try_gt
  | OpCode.greaterEqual => Option.some try_ge
  | OpCode.less => Option.some try_lt
  | OpCode.lessEqual => Option.some try_le
  | _ => Option.none

/-- A host context with an empty target and an empty variable store. -/
def emptyCtx : Context := { targetData := [], varStore := [] }

/-- The program of spec scenario 3: `Constant(1), Constant(0), Divide,
SetPathInfallible(ok, err, default = Null), Return`. -/
def divideRecoverVm : Vm :=
  { fns := []
  , instructions :=
      [ Instruction.opcode OpCode.constant, Instruction.primitive 0
      , Instruction.opcode OpCode.constant, Instruction.primitive 1
      , Instruction.opcode OpCode.divide
      , Instruction.opcode OpCode.setPathInfallible, Instruction.primitive 0
      , Instruction.primitive 1, Instruction.primitive 2
      , Instruction.opcode OpCode.ret ]
  , values := [Value.integer 1, Value.integer 0, Value.null]
  , targets := [Variable.internal "ok" Option.none, Variable.internal "err" Option.none]
  , staticParamCount := 0 }

/-- The display form of the division error raised by `1 / 0`. -/
def divideByZeroMessage : String := "cannot divide by zero"

/-- A program pushing the pairs `("a", 1)` and `("b", 2)` followed by
`CreateObject(2)` (spec scenario 6, no duplicate keys). -/
def createObjectVm : Vm :=
  { fns := []
  , instructions :=
      [ Instruction.opcode OpCode.constant, Instruction.primitive 0
      , Instruction.opcode OpCode.constant, Instruction.primitive 1
      , Instruction.opcode OpCode.constant, Instruction.primitive 2
      , Instruction.opcode OpCode.constant, Instruction.primitive 3
      , Instruction.opcode OpCode.createObject, Instruction.primitive 2
      , Instruction.opcode OpCode.ret ]
  , values := [Value.bytes "a", Value.integer 1, Value.bytes "b", Value.integer 2]
  , targets := []
  , staticParamCount := 0 }

/-- A program pushing the duplicate-key pairs `("a", 1)` then `("a", 2)`
followed by `CreateObject(2)`. -/
def createObjectDupVm : Vm :=
  { fns := []
  , instructions :=
      [ Instruction.opcode OpCode.constant, Instruction.primitive 0
      , Instruction.opcode OpCode.constant, Instruction.primitive 1
      , Instruction.opcode OpCode.constant, Instruction.primitive 0
      , Instruction.opcode OpCode.constant, Instruction.primitive 2
      , Instruction.opcode OpCode.createObject, Instruction.primitive 2
      , Instruction.opcode OpCode.ret ]
  , values := [Value.bytes "a", Value.integer 1, Value.integer 2]
  , targets := []
  , staticParamCount := 0 }

/-- A single `Divide` opcode, used to observe one guarded step in
isolation. -/
def divideOnlyVm : Vm :=
  { fns := [], instructions := [Instruction.opcode OpCode.divide]
  , values := [], targets := [], staticParamCount := 0 }

/-- A state about to execute `divideOnlyVm` with `1 / 0` on the stack
(rhs `0` on top) and an empty error register. -/
def divideFailState : VmState :=
  { instruction_pointer := 0, stack := [Value.integer 0, Value.integer 1]
  , parameter_stack := [], error := Option.none }

/-- A single `Add` opcode. -/
def addOnlyVm : Vm :=
  { fns := [], instructions := [Instruction.opcode OpCode.add]
  , values := [], targets := [], staticParamCount := 0 }

/-- A single `Equal` opcode. -/
def equalOnlyVm : Vm :=
  { fns := [], instructions := [Instruction.opcode OpCode.equal]
  , values := [], targets := [], staticParamCount := 0 }

/-- A single `NotEqual` opcode. -/
def notEqualOnlyVm : Vm :=
  { fns := [], instructions := [Instruction.opcode OpCode.notEqual]
  , values := [], targets := [], staticParamCount := 0 }

/-- A pending error used to exercise the guarded (errored) path. -/
def pendingError : ExpressionError := ExpressionError.error "pending" [] []

/-- A state with two integers on the stack and a pending error in the
error register. -/
def erroredState : VmState :=
  { instruction_pointer := 0, stack := [Value.integer 1, Value.integer 2]
  , parameter_stack := [], error := Option.some pendingError }

/-- A state with no pending error, about to execute `SetPathInfallible`
against the target table of `divideRecoverVm` with value `7` on the stack. -/
def spiOkState : VmState :=
  { instruction_pointer := 5, stack := [Value.integer 7]
  , parameter_stack := [], error := Option.none }

/-- A state with a pending error, about to execute `SetPathInfallible`
against the target table of `divideRecoverVm`. -/
def spiErrState : VmState :=
  { instruction_pointer := 5, stack := []
  , parameter_stack := [], error := Option.some pendingError }

/-- A `SetPath` instruction naming target slot 5 of an empty target
table. -/
def badSlotVm : Vm :=
  { fns := [], instructions := [Instruction.opcode OpCode.setPath, Instruction.primitive 5]
  , values := [], targets := [], staticParamCount := 0 }

/-- A `CreateObject(1)` instruction. -/
def createObjectOneVm : Vm :=
  { fns := [], instructions := [Instruction.opcode OpCode.createObject, Instruction.primitive 1]
  , values := [], targets := [], staticParamCount := 0 }

/-- A `GetPath` instruction naming target slot 2 of an empty target
table. -/
def getPathBadSlotVm : Vm :=
  { fns := [], instructions := [Instruction.opcode OpCode.getPath, Instruction.primitive 2]
  , values := [], targets := [], staticParamCount := 0 }

/-- A `SetPathInfallible` whose first (ok-target) slot 7 is outside the
empty target table. -/
def spiBadOkSlotVm : Vm :=
  { fns := []
  , instructions := [Instruction.opcode OpCode.setPathInfallible, Instruction.primitive 7]
  , values := [], targets := [], staticParamCount := 0 }

/-- A `SetPathInfallible` whose ok-target slot 0 is in range but whose
second (err-target) slot 9 is outside the one-entry target table. -/
def spiBadErrSlotVm : Vm :=
  { fns := []
  , instructions := [Instruction.opcode OpCode.setPathInfallible, Instruction.primitive 0,
      Instruction.primitive 9]
  , values := [], targets := [Variable.internal "ok" Option.none], staticParamCount := 0 }

/-- A `SetPathInfallible` whose two target slots are in range but whose
third (default-constant) slot 9 is outside the empty constant pool. -/
def spiBadDefaultSlotVm : Vm :=
  { fns := []
  , instructions := [Instruction.opcode OpCode.setPathInfallible, Instruction.primitive 0,
      Instruction.primitive 0, Instruction.primitive 9]
  , values := [], targets := [Variable.internal "ok" Option.none], staticParamCount := 0 }

/-- A `Call` instruction naming function slot 3 of an empty function
table. -/
def callBadSlotVm : Vm :=
  { fns := []
  , instructions := [Instruction.opcode OpCode.call, Instruction.primitive 3,
      Instruction.primitive 0, Instruction.primitive 0]
  , values := [], targets := [], staticParamCount := 0 }

/-- The operand-stack image of a list of (value, key) pairs as
`CreateObject` consumes them: the first list element is the pair popped
first (pushed last), its value above its key. -/
def stackOfPairs : List (Value × Value) → List Value
  | [] => []
  | (value, key) :: rest => value :: key :: stackOfPairs rest

/-- A `CreateObject(2)` instruction. -/
def createObjectTwoVm : Vm :=
  { fns := [], instructions := [Instruction.opcode OpCode.createObject, Instruction.primitive 2]
  , values := [], targets := [], staticParamCount := 0 }

/-- A state whose first popped pair is well formed (`("x", 1)`) and whose
second popped pair has an integer key (`4`), not bytes. -/
def badSecondKeyState : VmState :=
  { instruction_pointer := 0
  , stack := [Value.integer 1, Value.bytes "x", Value.integer 3, Value.integer 4]
  , parameter_stack := [], error := Option.none }

/-- The container obtained from `vm0` by `emit_jump(op)` followed by
appending the instructions `extra` (the compilation of an intervening
block). -/
def extendedVm (vm0 : Vm) (op : OpCode) (extra : List Instruction) : Vm :=
  { (vm0.emit_jump op).1 with
      instructions := (vm0.emit_jump op).1.instructions ++ extra }

/-- The container `extendedVm` after `patch_jump` of the placeholder slot returned by
`emit_jump`. -/
def patchedVm (vm0 : Vm) (op : OpCode) (extra : List Instruction) : Vm :=
  (extendedVm vm0 op extra).patch_jump (vm0.emit_jump op).2

/-! ### Claims about the kind finder -/

theorem findLoop_error_negative :
    ∀ (path : List Segment) (kind : Kind) (b : Bool) (e : FindError),
      findLoop kind path b = .error e →
      e = FindError.negativeIndexPath ∧ containsNegativeIndex path = true := by
  intro path
  induction path with
  | nil => intro kind b e h; simp [findLoop] at h
  | cons segment rest ih =>
    intro kind b e h
    simp only [findLoop] at h
    cases hd : descendSeg kind segment with
    | missing => rw [hd] at h; simp at h
    | negative =>
      rw [hd] at h
      cases e
      refine ⟨rfl, ?_⟩
      cases segment with
      | field f => simp [descendSeg] at hd; split at hd <;> simp_all
      | coalesce fs =>
        exfalso
        simp only [descendSeg] at hd
        split at hd <;> try simp_all
        split at hd <;> try simp_all
        split at hd <;> simp_all
      | index i =>
        simp only [descendSeg] at hd
        split at hd
        · next hneg => simp [containsNegativeIndex, hneg]
        · split at hd <;> simp_all
    | exact k =>
      rw [hd] at h
      have := ih k (b || !kind.is_exact) e h
      refine ⟨this.1, ?_⟩
      simp only [containsNegativeIndex, List.any_cons, Bool.or_eq_true]
      right
      exact this.2
    | infinite k => rw [hd] at h; simp at h

theorem findLoop_allExact :
    ∀ (path : List Segment) (kind : Kind),
      allExactAlong kind path = true →
      findLoop kind path false = findRaw kind path := by
  intro path
  induction path with
  | nil => intro kind _; simp [findLoop, findRaw, widen]
  | cons segment rest ih =>
    intro kind h
    simp only [allExactAlong, Bool.and_eq_true] at h
    simp only [findLoop, h.1, Bool.not_true, Bool.or_false, findRaw]
    cases hd : descendSeg kind segment with
    | missing => rfl
    | negative => rfl
    | exact k =>
      have := h.2
      rw [hd] at this
      exact ih k this
    | infinite k => simp [widen]

/-- An exact kind whose sole shape bit is bytes. -/
def kindBytesOnly : Kind :=
  Kind.mk true false false false false false false Option.none Option.none

/-- An exact kind whose sole shape bit is null. -/
def kindNullOnly : Kind :=
  Kind.mk false false false false false false true Option.none Option.none

/-- An exact object kind with the single known field `foo` of kind
`kindNullOnly` and no unknown descriptor. -/
def kindObjFooNull : Kind :=
  Kind.mk false false false false false false false
    (Option.some (ObjCollection.mk [("foo", kindNullOnly)] Option.none)) Option.none

/-- C5 counterexample: the path `.a[-1]` contains a negative index
segment, yet `find_at_path` on the bytes kind returns `Ok(None)` — the
field segment `a` misses before the negative index is reached — so the
claimed "iff" fails in the right-to-left direction. -/
theorem find_negative_index_counterexample :
    find_at_path kindBytesOnly [Segment.field "a", Segment.index (-1)] = .ok Option.none ∧
    containsNegativeIndex [Segment.field "a", Segment.index (-1)] = true := by
  exact ⟨rfl, rfl⟩

/-- C5 (amended): `find_at_path` returns `Err(NegativeIndex)` *only if*
the path contains a negative integer index segment, and a path whose
*first* segment is a negative index always yields `Err(NegativeIndex)`;
a negative segment occurring after a segment that exits the traversal
early (miss or infinite unknown) is not reached, so the unrestricted
"iff" of the original claim does not hold. -/
theorem find_negative_index_only_if :
    (∀ (kind : Kind) (path : List Segment) (e : FindError),
        find_at_path kind path = .error e →
        e = FindError.negativeIndexPath ∧ containsNegativeIndex path = true) ∧
    (∀ (kind : Kind) (i : Int) (rest : List Segment), i < 0 →
        find_at_path kind (Segment.index i :: rest) = .error FindError.negativeIndexPath) := by
  constructor
  · intro kind path e h
    simp only [find_at_path] at h
    split at h
    · simp at h
    · exact findLoop_error_negative path kind false e h
  · intro kind i rest hneg
    simp [find_at_path, findLoop, descendSeg, hneg]

/-- Witness for `find_negative_index_only_if` at the concrete input
`find_at_path(bytes, [-1])`. -/
theorem find_negative_index_only_if_witness :
    (FindError.negativeIndexPath = FindError.negativeIndexPath ∧
      containsNegativeIndex [Segment.index (-1)] = true) ∧
    find_at_path kindBytesOnly [Segment.index (-1)] = .error FindError.negativeIndexPath :=
  ⟨find_negative_index_only_if.1 kindBytesOnly [Segment.index (-1)]
      FindError.negativeIndexPath
      (find_negative_index_only_if.2 kindBytesOnly (-1) [] (by decide)),
   find_negative_index_only_if.2 kindBytesOnly (-1) [] (by decide)⟩

/-- C6 counterexample: the exact object kind `{foo: null}` is exact, every
kind visited along the path `.foo` is exact, yet the result kind is the
null kind — its null bit comes from the stored field kind, not from any
non-exact kind along the path. -/
theorem find_null_bit_counterexample :
    Kind.is_exact kindObjFooNull = true ∧
    find_at_path kindObjFooNull [Segment.field "foo"] = .ok (Option.some kindNullOnly) ∧
    Kind.null kindNullOnly = true ∧
    allExactAlong kindObjFooNull [Segment.field "foo"] = true ∧
    Kind.is_exact kindNullOnly = true := by
  exact ⟨rfl, rfl, rfl, rfl, rfl⟩

/-- C6 (amended): for every exact kind `K` and path, if
`find_at_path(K, path) = Ok(Some(K'))` and `K'` contains the null bit,
then either some kind visited along the path (the root or an
intermediate) was non-exact, or the kind reached by the traversal itself
already contains the null bit as stored (no null-widening occurred):
the original claim omits the second disjunct. -/
theorem find_null_only_if_nonexact_or_stored :
    ∀ (kind : Kind) (path : List Segment) (res : Kind),
      Kind.is_exact kind = true →
      find_at_path kind path = .ok (Option.some res) →
      Kind.null res = true →
      allExactAlong kind path = false ∨ rawNull kind path = true := by
  intro kind path res _hexact hfind hnull
  by_cases hall : allExactAlong kind path = true
  · right
    simp only [find_at_path] at hfind
    split at hfind
    · next hempty =>
      simp only [Except.ok.injEq, Option.some.injEq] at hfind
      have hnil : path = [] := by
        cases path with
        | nil => rfl
        | cons a l => simp at hempty
      subst hnil
      simp only [rawNull, findRaw, hfind, hnull]
    · rw [findLoop_allExact path kind hall] at hfind
      simp only [rawNull, hfind, hnull]
  · left
    exact Bool.eq_false_iff.mpr hall

/-- Witness for `find_null_only_if_nonexact_or_stored` at the concrete
input `{foo: null}` with path `.foo`. -/
theorem find_null_only_if_nonexact_or_stored_witness :
    allExactAlong kindObjFooNull [Segment.field "foo"] = false ∨
    rawNull kindObjFooNull [Segment.field "foo"] = true :=
  find_null_only_if_nonexact_or_stored kindObjFooNull [Segment.field "foo"] kindNullOnly
    rfl rfl rfl

/-- C7: `find_at_path(K, root)` returns `Ok(Some(K))` itself, with no null
widening, for every kind `K` including non-exact ones
(find.rs lines 87-89). -/
theorem find_at_root_identity :
    ∀ (kind : Kind), find_at_path kind [] = .ok (Option.some kind) := by
  intro kind
  rfl

/-! ### Claims about the VM -/

theorem next_at (vm : Vm) (s : VmState) (op : OpCode)
    (h : vm.instructions[s.instruction_pointer]? = Option.some (Instruction.opcode op)) :
    s.next vm = .ok (op, { s with instruction_pointer := s.instruction_pointer + 1 }) := by
  simp [VmState.next, h]

theorem next_primitive_at (vm : Vm) (s : VmState) (n : Nat)
    (h : vm.instructions[s.instruction_pointer]? = Option.some (Instruction.primitive n)) :
    s.next_primitive vm = .ok (n, { s with instruction_pointer := s.instruction_pointer + 1 }) := by
  simp [VmState.next_primitive, h]

theorem binary_op_errored (s : VmState) (f : Value → Value → Except String Value)
    (e : ExpressionError) (he : s.error = Option.some e) :
    binary_op s f = .ok s := by
  simp [binary_op, he]

theorem binary_op_failure (s : VmState) (f : Value → Value → Except String Value)
    (rhs lhs : Value) (rest : List Value) (msg : String)
    (he : s.error = Option.none) (hs : s.stack = rhs :: lhs :: rest)
    (hf : f lhs rhs = .error msg) :
    binary_op s f =
      .ok { s with stack := rest,
                   error := Option.some (ExpressionError.error msg [] []) } := by
  simp [binary_op, he, VmState.pop_stack, hs, hf]

theorem step_guarded (op : OpCode) (f : Value → Value → Except String Value)
    (hop : guardedImpl op = Option.some f) (vm : Vm) (ctx : Context) (s : VmState)
    (h : vm.instructions[s.instruction_pointer]? = Option.some (Instruction.opcode op)) :
    step vm ctx s = runBinary ctx { s with instruction_pointer := s.instruction_pointer + 1 } f := by
  cases op <;> simp [guardedImpl] at hop <;> subst hop <;> simp [step, VmState.next, h]

/-- C1 (amended): when a guarded binary opcode runs with an empty error
register and the value-level operation fails on the two popped operands,
the error register afterwards holds that operation error and the operand
stack is exactly the contents below the two operands — the operands are
consumed and nothing is pushed, so the stack is two shorter than before
the opcode, not the same size. -/
theorem guarded_failure_sets_error :
    ∀ (op : OpCode) (f : Value → Value → Except String Value),
      guardedImpl op = Option.some f →
      ∀ (vm : Vm) (ctx : Context) (s : VmState) (rhs lhs : Value) (rest : List Value)
        (msg : String),
        vm.instructions[s.instruction_pointer]? = Option.some (Instruction.opcode op) →
        s.error = Option.none →
        s.stack = rhs :: lhs :: rest →
        f lhs rhs = .error msg →
        step vm ctx s =
          .running { s with instruction_pointer := s.instruction_pointer + 1,
                            stack := rest,
                            error := Option.some (ExpressionError.error msg [] []) } ctx := by
  intro op f hop vm ctx s rhs lhs rest msg hi he hs hf
  rw [step_guarded op f hop vm ctx s hi]
  rw [runBinary,
    binary_op_failure { s with instruction_pointer := s.instruction_pointer + 1 } f
      rhs lhs rest msg he hs hf]

/-- Witness for `guarded_failure_sets_error`: dividing `1` by `0`
consumes both operands and stores the division error. -/
theorem guarded_failure_sets_error_witness :
    step divideOnlyVm emptyCtx divideFailState =
      .running { instruction_pointer := 1, stack := [], parameter_stack := [],
                 error := Option.some (ExpressionError.error divideByZeroMessage [] []) }
        emptyCtx :=
  guarded_failure_sets_error OpCode.divide try_div rfl divideOnlyVm emptyCtx
    divideFailState (Value.integer 0) (Value.integer 1) [] divideByZeroMessage
    rfl rfl rfl rfl

/-- C1 counterexample: after the failing `Divide` the operand stack has
0 elements while it had 2 before the opcode, so the operand stack does
*not* keep the same size as the claim states. -/
theorem guarded_failure_stack_shrinks_counterexample :
    step divideOnlyVm emptyCtx divideFailState =
      .running { instruction_pointer := 1, stack := [], parameter_stack := [],
                 error := Option.some (ExpressionError.error divideByZeroMessage [] []) }
        emptyCtx ∧
    ([] : List Value).length ≠ divideFailState.stack.length := by
  exact ⟨rfl, by decide⟩

/-- C2: with a non-empty error register, every guarded opcode
(Add..LessEqual, Merge) is a complete no-op apart from the instruction
pointer advancing past the opcode — no pop, no push, error preserved —
while `Equal` and `NotEqual` still pop two values and push the lossy
equality boolean (resp. its negation) regardless of the error
register. -/
theorem errored_guarded_ops_skip :
    (∀ (op : OpCode) (f : Value → Value → Except String Value),
      guardedImpl op = Option.some f →
      ∀ (vm : Vm) (ctx : Context) (s : VmState) (e : ExpressionError),
        vm.instructions[s.instruction_pointer]? = Option.some (Instruction.opcode op) →
        s.error = Option.some e →
        step vm ctx s =
          .running { s with instruction_pointer := s.instruction_pointer + 1 } ctx) ∧
    (∀ (vm : Vm) (ctx : Context) (s : VmState) (e : ExpressionError) (rhs lhs : Value)
        (rest : List Value),
        vm.instructions[s.instruction_pointer]? = Option.some (Instruction.opcode OpCode.equal) →
        s.error = Option.some e →
        s.stack = rhs :: lhs :: rest →
        step vm ctx s =
          .running { s with instruction_pointer := s.instruction_pointer + 1,
                            stack := Value.boolean (eq_lossy lhs rhs) :: rest } ctx) ∧
    (∀ (vm : Vm) (ctx : Context) (s : VmState) (e : ExpressionError) (rhs lhs : Value)
        (rest : List Value),
        vm.instructions[s.instruction_pointer]? = Option.some (Instruction.opcode OpCode.notEqual) →
        s.error = Option.some e →
        s.stack = rhs :: lhs :: rest →
        step vm ctx s =
          .running { s with instruction_pointer := s.instruction_pointer + 1,
                            stack := Value.boolean (!eq_lossy lhs rhs) :: rest } ctx) := by
  refine ⟨?_, ?_, ?_⟩
  · intro op f hop vm ctx s e hi he
    rw [step_guarded op f hop vm ctx s hi]
    rw [runBinary,
      binary_op_errored { s with instruction_pointer := s.instruction_pointer + 1 } f e he]
  · intro vm ctx s e rhs lhs rest hi he hs
    simp [step, VmState.next, hi, VmState.pop_stack, hs, VmState.push_stack]
  · intro vm ctx s e rhs lhs rest hi he hs
    simp [step, VmState.next, hi, VmState.pop_stack, hs, VmState.push_stack]

/-- Witness for `errored_guarded_ops_skip`: a pending error makes `Add` a
pure no-op, while `Equal` and `NotEqual` still operate on the stack. -/
theorem errored_guarded_ops_skip_witness :
    step addOnlyVm emptyCtx erroredState =
      .running { instruction_pointer := 1, stack := [Value.integer 1, Value.integer 2],
                 parameter_stack := [], error := Option.some pendingError } emptyCtx ∧
    step equalOnlyVm emptyCtx erroredState =
      .running { instruction_pointer := 1,
                 stack := [Value.boolean (eq_lossy (Value.integer 2) (Value.integer 1))],
                 parameter_stack := [], error := Option.some pendingError } emptyCtx ∧
    step notEqualOnlyVm emptyCtx erroredState =
      .running { instruction_pointer := 1,
                 stack := [Value.boolean (!eq_lossy (Value.integer 2) (Value.integer 1))],
                 parameter_stack := [], error := Option.some pendingError } emptyCtx :=
  ⟨errored_guarded_ops_skip.1 OpCode.add try_add rfl addOnlyVm emptyCtx erroredState
      pendingError rfl rfl,
   errored_guarded_ops_skip.2.1 equalOnlyVm emptyCtx erroredState pendingError
      (Value.integer 1) (Value.integer 2) [] rfl rfl rfl,
   errored_guarded_ops_skip.2.2 notEqualOnlyVm emptyCtx erroredState pendingError
      (Value.integer 1) (Value.integer 2) [] rfl rfl rfl⟩

/-- C3: `SetPathInfallible(ok_tgt, err_tgt, default_slot)` — with a
pending error, the register is cleared, the default constant is stored
into `ok_tgt`, the stringified error is stored into `err_tgt` and pushed
on the stack; with an empty register, the top value `v` is popped, stored
into `ok_tgt`, `Null` is stored into `err_tgt`, and `v` is pushed back.
In particular the program `Constant(1), Constant(0), Divide,
SetPathInfallible(ok, err, default = Null), Return` returns the
stringified division error, with `ok` bound to Null and `err` bound to
that same string. -/
theorem set_path_infallible_spec :
    (∀ (vm : Vm) (ctx : Context) (s : VmState) (a b c : Nat)
        (okTarget errTarget : Variable) (dflt : Value) (e : ExpressionError),
        vm.instructions[s.instruction_pointer]? =
          Option.some (Instruction.opcode OpCode.setPathInfallible) →
        vm.instructions[s.instruction_pointer + 1]? = Option.some (Instruction.primitive a) →
        vm.instructions[s.instruction_pointer + 2]? = Option.some (Instruction.primitive b) →
        vm.instructions[s.instruction_pointer + 3]? = Option.some (Instruction.primitive c) →
        vm.targets[a]? = Option.some okTarget →
        vm.targets[b]? = Option.some errTarget →
        vm.values[c]? = Option.some dflt →
        s.error = Option.some e →
        step vm ctx s =
          .running { s with instruction_pointer := s.instruction_pointer + 4,
                            stack := Value.bytes e.toDisplay :: s.stack,
                            error := Option.none }
            (set_variable (set_variable ctx okTarget dflt) errTarget
              (Value.bytes e.toDisplay))) ∧
    (∀ (vm : Vm) (ctx : Context) (s : VmState) (a b c : Nat)
        (okTarget errTarget : Variable) (dflt : Value) (v : Value) (rest : List Value),
        vm.instructions[s.instruction_pointer]? =
          Option.some (Instruction.opcode OpCode.setPathInfallible) →
        vm.instructions[s.instruction_pointer + 1]? = Option.some (Instruction.primitive a) →
        vm.instructions[s.instruction_pointer + 2]? = Option.some (Instruction.primitive b) →
        vm.instructions[s.instruction_pointer + 3]? = Option.some (Instruction.primitive c) →
        vm.targets[a]? = Option.some okTarget →
        vm.targets[b]? = Option.some errTarget →
        vm.values[c]? = Option.some dflt →
        s.error = Option.none →
        s.stack = v :: rest →
        step vm ctx s =
          .running { s with instruction_pointer := s.instruction_pointer + 4,
                            stack := v :: rest }
            (set_variable (set_variable ctx okTarget v) errTarget Value.null)) ∧
    interpret divideRecoverVm emptyCtx =
      RunResult.ok (Value.bytes divideByZeroMessage)
        { targetData := []
        , varStore := [("ok", Value.null), ("err", Value.bytes divideByZeroMessage)] } ∧
    (match interpret divideRecoverVm emptyCtx with
     | RunResult.ok _ ctx =>
        lookupVariable ctx "ok" = Option.some Value.null ∧
        lookupVariable ctx "err" = Option.some (Value.bytes divideByZeroMessage)
     | _ => False) := by
  refine ⟨?_, ?_, rfl, ⟨rfl, rfl⟩⟩
  · intro vm ctx s a b c okTarget errTarget dflt e h0 h1 h2 h3 ha hb hc he
    simp [step, VmState.next, VmState.next_primitive, VmState.push_stack,
      h0, h1, h2, h3, ha, hb, hc, he, Nat.add_assoc]
  · intro vm ctx s a b c okTarget errTarget dflt v rest h0 h1 h2 h3 ha hb hc he hs
    simp [step, VmState.next, VmState.next_primitive, VmState.push_stack,
      VmState.pop_stack, h0, h1, h2, h3, ha, hb, hc, he, hs, Nat.add_assoc]

/-- Witness for `set_path_infallible_spec`: both single-step branches
instantiated against the tables of `divideRecoverVm`. -/
theorem set_path_infallible_spec_witness :
    step divideRecoverVm emptyCtx spiErrState =
      .running { instruction_pointer := 9, stack := [Value.bytes "pending"],
                 parameter_stack := [], error := Option.none }
        (set_variable (set_variable emptyCtx (Variable.internal "ok" Option.none) Value.null)
          (Variable.internal "err" Option.none) (Value.bytes "pending")) ∧
    step divideRecoverVm emptyCtx spiOkState =
      .running { instruction_pointer := 9, stack := [Value.integer 7],
                 parameter_stack := [], error := Option.none }
        (set_variable (set_variable emptyCtx (Variable.internal "ok" Option.none) (Value.integer 7))
          (Variable.internal "err" Option.none) Value.null) :=
  ⟨set_path_infallible_spec.1 divideRecoverVm emptyCtx spiErrState 0 1 2
      (Variable.internal "ok" Option.none) (Variable.internal "err" Option.none)
      Value.null pendingError rfl rfl rfl rfl rfl rfl rfl rfl,
   set_path_infallible_spec.2.1 divideRecoverVm emptyCtx spiOkState 0 1 2
      (Variable.internal "ok" Option.none) (Variable.internal "err" Option.none)
      Value.null (Value.integer 7) [] rfl rfl rfl rfl rfl rfl rfl rfl rfl⟩

/-- C4 counterexample: pushing the duplicate-key pairs `("a", 1)` then
`("a", 2)` and running `CreateObject(2)` yields `Object(a: 1)` — the pair
pushed *earlier* survives — refuting the claim that the later push wins
(which would give `Object(a: 2)`). -/
theorem create_object_last_write_counterexample :
    interpret createObjectDupVm emptyCtx =
      RunResult.ok (Value.object [("a", Value.integer 1)]) emptyCtx ∧
    interpret createObjectDupVm emptyCtx ≠
      RunResult.ok (Value.object [("a", Value.integer 2)]) emptyCtx := by
  refine ⟨rfl, ?_⟩
  intro h
  rw [show interpret createObjectDupVm emptyCtx =
        RunResult.ok (Value.object [("a", Value.integer 1)]) emptyCtx from rfl] at h
  simp at h

/-- C4 (amended): `CreateObject(n)` pops the `n` (key, value) pairs
(value above key) and assembles them into an object; the pairs are
inserted starting from the *top* of the stack, and a later insert
replaces an earlier one, so when two pairs carry the same key the pair
that was pushed *earlier* wins.  With distinct keys the example of spec scenario 6,
`("a", 1, "b", 2)` still yields `Object(a: 1, b: 2)`. -/
theorem create_object_earliest_push_wins :
    (∀ (vm : Vm) (ctx : Context) (s : VmState) (n : Nat)
        (fields : List (String × Value)) (rest : List Value),
        vm.instructions[s.instruction_pointer]? =
          Option.some (Instruction.opcode OpCode.createObject) →
        vm.instructions[s.instruction_pointer + 1]? = Option.some (Instruction.primitive n) →
        createObjectLoop n s.stack [] = ObjLoopResult.ok fields rest →
        step vm ctx s =
          .running { s with instruction_pointer := s.instruction_pointer + 2,
                            stack := Value.object fields :: rest } ctx) ∧
    (∀ (v1 v2 : Value),
        createObjectLoop 2 [v2, Value.bytes "a", v1, Value.bytes "a"] [] =
          ObjLoopResult.ok [("a", v1)] []) ∧
    interpret createObjectVm emptyCtx =
      RunResult.ok (Value.object [("a", Value.integer 1), ("b", Value.integer 2)]) emptyCtx := by
  refine ⟨?_, ?_, rfl⟩
  · intro vm ctx s n fields rest h0 h1 hloop
    simp [step, VmState.next, VmState.next_primitive, h0, h1, hloop, Nat.add_assoc]
  · intro v1 v2
    rfl

/-- Witness for `create_object_earliest_push_wins`: one `CreateObject(2)`
step assembling the duplicate-key pairs, and the pair loop on concrete
values. -/
theorem create_object_earliest_push_wins_witness :
    step createObjectOneVm emptyCtx
      { instruction_pointer := 0
      , stack := [Value.integer 3, Value.bytes "k"]
      , parameter_stack := [], error := Option.none } =
      .running { instruction_pointer := 2, stack := [Value.object [("k", Value.integer 3)]],
                 parameter_stack := [], error := Option.none } emptyCtx ∧
    createObjectLoop 2
        [Value.integer 9, Value.bytes "a", Value.integer 8, Value.bytes "a"] [] =
      ObjLoopResult.ok [("a", Value.integer 8)] [] :=
  ⟨create_object_earliest_push_wins.1 createObjectOneVm emptyCtx
      { instruction_pointer := 0
      , stack := [Value.integer 3, Value.bytes "k"]
      , parameter_stack := [], error := Option.none }
      1 [("k", Value.integer 3)] [] rfl rfl rfl,
   create_object_earliest_push_wins.2.1 (Value.integer 8) (Value.integer 9)⟩

theorem getElem?_append_add {α : Type} :
    ∀ (l₁ l₂ : List α) (n : Nat), (l₁ ++ l₂)[l₁.length + n]? = l₂[n]? := by
  intro l₁
  induction l₁ with
  | nil => intro l₂ n; simp
  | cons a l ih =>
    intro l₂ n
    have harith : l.length + 1 + n = (l.length + n) + 1 := by omega
    simp only [List.cons_append, List.length_cons, harith, List.getElem?_cons_succ]
    exact ih l₂ n

theorem set_append_add {α : Type} :
    ∀ (l₁ l₂ : List α) (n : Nat) (x : α),
      (l₁ ++ l₂).set (l₁.length + n) x = l₁ ++ l₂.set n x := by
  intro l₁
  induction l₁ with
  | nil => intro l₂ n x; simp
  | cons a l ih =>
    intro l₂ n x
    have harith : l.length + 1 + n = (l.length + n) + 1 := by omega
    simp only [List.cons_append, List.length_cons, harith, List.set]
    rw [ih l₂ n x]

/-- C8: `emit_jump(op)` appends `op` followed by the `usize::MAX`
placeholder and returns the index of the placeholder; after appending an
arbitrary block `extra`, `patch_jump(slot)` overwrites the placeholder
with `current_end - slot - 1`; executing the patched `Jump` leaves the
instruction pointer exactly one past the last instruction written before
the patch (the end of the extended stream). -/
theorem emit_patch_jump_lands_at_end :
    ∀ (vm0 : Vm) (op : OpCode) (extra : List Instruction) (ctx : Context)
      (stk : List Value) (ps : List (Option VmArgument)) (er : Option ExpressionError),
      (vm0.emit_jump op).2 = vm0.instructions.length + 1 ∧
      (vm0.emit_jump op).1.instructions =
        vm0.instructions ++ [Instruction.opcode op, Instruction.primitive USIZE_MAX] ∧
      (patchedVm vm0 op extra).instructions =
        vm0.instructions ++
          [Instruction.opcode op,
           Instruction.primitive
             ((extendedVm vm0 op extra).instructions.length - (vm0.emit_jump op).2 - 1)]
          ++ extra ∧
      (op = OpCode.jump →
        step (patchedVm vm0 op extra) ctx
            { instruction_pointer := vm0.instructions.length, stack := stk,
              parameter_stack := ps, error := er } =
          .running
            { instruction_pointer := (extendedVm vm0 op extra).instructions.length,
              stack := stk, parameter_stack := ps, error := er } ctx) := by
  intro vm0 op extra ctx stk ps er
  have hslot : (vm0.emit_jump op).2 = vm0.instructions.length + 1 := by
    simp [Vm.emit_jump, Vm.write_chunk, Vm.write_primitive]
  have hemit : (vm0.emit_jump op).1.instructions =
      vm0.instructions ++ [Instruction.opcode op, Instruction.primitive USIZE_MAX] := by
    simp [Vm.emit_jump, Vm.write_chunk, Vm.write_primitive]
  have hext : (extendedVm vm0 op extra).instructions =
      vm0.instructions ++
        (Instruction.opcode op :: Instruction.primitive USIZE_MAX :: extra) := by
    simp [extendedVm, hemit]
  have hextlen : (extendedVm vm0 op extra).instructions.length =
      vm0.instructions.length + 2 + extra.length := by
    rw [hext]; simp; omega
  have hoff : (extendedVm vm0 op extra).instructions.length - (vm0.emit_jump op).2 - 1 =
      extra.length := by
    rw [hextlen, hslot]; omega
  have hpatched : (patchedVm vm0 op extra).instructions =
      vm0.instructions ++
        (Instruction.opcode op :: Instruction.primitive extra.length :: extra) := by
    show ((extendedVm vm0 op extra).write_primitive_at (vm0.emit_jump op).2
        ((extendedVm vm0 op extra).instructions.length - (vm0.emit_jump op).2 - 1)).instructions =
      vm0.instructions ++ (Instruction.opcode op :: Instruction.primitive extra.length :: extra)
    rw [hoff]
    simp only [Vm.write_primitive_at, hext, hslot]
    have : vm0.instructions.length + 1 = vm0.instructions.length + 1 := rfl
    rw [set_append_add vm0.instructions
      (Instruction.opcode op :: Instruction.primitive USIZE_MAX :: extra) 1
      (Instruction.primitive extra.length)]
    rfl
  refine ⟨hslot, hemit, ?_, ?_⟩
  · rw [hpatched, hoff]; simp
  · intro hj
    subst hj
    have hget0 : (patchedVm vm0 OpCode.jump extra).instructions[vm0.instructions.length]? =
        Option.some (Instruction.opcode OpCode.jump) := by
      rw [hpatched]
      have := getElem?_append_add vm0.instructions
        (Instruction.opcode OpCode.jump :: Instruction.primitive extra.length :: extra) 0
      simpa using this
    have hget1 : (patchedVm vm0 OpCode.jump extra).instructions[vm0.instructions.length + 1]? =
        Option.some (Instruction.primitive extra.length) := by
      rw [hpatched]
      have := getElem?_append_add vm0.instructions
        (Instruction.opcode OpCode.jump :: Instruction.primitive extra.length :: extra) 1
      simpa using this
    simp [step, VmState.next, VmState.next_primitive, hget0, hget1, hextlen]

/-- Witness for `emit_patch_jump_lands_at_end` at a concrete container:
an empty container, a `Jump` emitted over a two-instruction block. -/
theorem emit_patch_jump_lands_at_end_witness :
    step (patchedVm
        { fns := [], instructions := [], values := [], targets := [], staticParamCount := 0 }
        OpCode.jump [Instruction.opcode OpCode.pop, Instruction.opcode OpCode.pop]) emptyCtx
      { instruction_pointer := 0, stack := [], parameter_stack := [], error := Option.none } =
    .running
      { instruction_pointer :=
          (extendedVm
            { fns := [], instructions := [], values := [], targets := [], staticParamCount := 0 }
            OpCode.jump [Instruction.opcode OpCode.pop, Instruction.opcode OpCode.pop]).instructions.length
      , stack := [], parameter_stack := [], error := Option.none } emptyCtx :=
  (emit_patch_jump_lands_at_end
    { fns := [], instructions := [], values := [], targets := [], staticParamCount := 0 }
    OpCode.jump [Instruction.opcode OpCode.pop, Instruction.opcode OpCode.pop]
    emptyCtx [] [] Option.none).2.2.2 rfl

/-- C9 counterexample: a `SetPath` naming slot 5 of an empty target table
makes the interpreter panic (the `self.targets[..]` indexing aborts the
process); the run is *not* an `Err` result, so no `FetchError` is
returned. -/
theorem bad_slot_panics_counterexample :
    interpret badSlotVm emptyCtx = RunResult.panicked ∧
    (interpret badSlotVm emptyCtx).isErr = false := by
  exact ⟨rfl, rfl⟩

/-- C9 (amended): when execution reaches a `SetPath`, `SetPathInfallible`
(any of its three slots: ok target, err target, or default constant),
`GetPath` or `Call` instruction whose slot primitive is outside the
bounds of the corresponding targets, constants, or function table, the
interpreter *panics* — the out-of-bounds `self.targets[..]`,
`self.values[..]` or `self.fns[..]` indexing aborts the process — rather
than returning a `FetchError` (an `Err` result). -/
theorem out_of_range_slot_panics :
    (∀ (vm : Vm) (ctx : Context) (s : VmState) (n : Nat),
        vm.instructions[s.instruction_pointer]? =
          Option.some (Instruction.opcode OpCode.setPath) →
        vm.instructions[s.instruction_pointer + 1]? = Option.some (Instruction.primitive n) →
        vm.targets.length ≤ n →
        step vm ctx s = StepOutcome.panicked) ∧
    (∀ (vm : Vm) (ctx : Context) (s : VmState) (n : Nat),
        vm.instructions[s.instruction_pointer]? =
          Option.some (Instruction.opcode OpCode.getPath) →
        vm.instructions[s.instruction_pointer + 1]? = Option.some (Instruction.primitive n) →
        vm.targets.length ≤ n →
        step vm ctx s = StepOutcome.panicked) ∧
    (∀ (vm : Vm) (ctx : Context) (s : VmState) (n : Nat),
        vm.instructions[s.instruction_pointer]? =
          Option.some (Instruction.opcode OpCode.setPathInfallible) →
        vm.instructions[s.instruction_pointer + 1]? = Option.some (Instruction.primitive n) →
        vm.targets.length ≤ n →
        step vm ctx s = StepOutcome.panicked) ∧
    (∀ (vm : Vm) (ctx : Context) (s : VmState) (a b : Nat) (okTarget : Variable),
        vm.instructions[s.instruction_pointer]? =
          Option.some (Instruction.opcode OpCode.setPathInfallible) →
        vm.instructions[s.instruction_pointer + 1]? = Option.some (Instruction.primitive a) →
        vm.targets[a]? = Option.some okTarget →
        vm.instructions[s.instruction_pointer + 2]? = Option.some (Instruction.primitive b) →
        vm.targets.length ≤ b →
        step vm ctx s = StepOutcome.panicked) ∧
    (∀ (vm : Vm) (ctx : Context) (s : VmState) (a b c : Nat) (okTarget errTarget : Variable),
        vm.instructions[s.instruction_pointer]? =
          Option.some (Instruction.opcode OpCode.setPathInfallible) →
        vm.instructions[s.instruction_pointer + 1]? = Option.some (Instruction.primitive a) →
        vm.targets[a]? = Option.some okTarget →
        vm.instructions[s.instruction_pointer + 2]? = Option.some (Instruction.primitive b) →
        vm.targets[b]? = Option.some errTarget →
        vm.instructions[s.instruction_pointer + 3]? = Option.some (Instruction.primitive c) →
        vm.values.length ≤ c →
        step vm ctx s = StepOutcome.panicked) ∧
    (∀ (vm : Vm) (ctx : Context) (s : VmState) (n a b : Nat),
        vm.instructions[s.instruction_pointer]? =
          Option.some (Instruction.opcode OpCode.call) →
        vm.instructions[s.instruction_pointer + 1]? = Option.some (Instruction.primitive n) →
        vm.instructions[s.instruction_pointer + 2]? = Option.some (Instruction.primitive a) →
        vm.instructions[s.instruction_pointer + 3]? = Option.some (Instruction.primitive b) →
        vm.fns.length ≤ n →
        step vm ctx s = StepOutcome.panicked) := by
  refine ⟨?_, ?_, ?_, ?_, ?_, ?_⟩
  · intro vm ctx s n h0 h1 hlen
    have hnone : vm.targets[n]? = Option.none := List.getElem?_eq_none hlen
    simp [step, VmState.next, VmState.next_primitive, h0, h1, hnone]
  · intro vm ctx s n h0 h1 hlen
    have hnone : vm.targets[n]? = Option.none := List.getElem?_eq_none hlen
    simp [step, VmState.next, VmState.next_primitive, h0, h1, hnone]
  · intro vm ctx s n h0 h1 hlen
    have hnone : vm.targets[n]? = Option.none := List.getElem?_eq_none hlen
    simp [step, VmState.next, VmState.next_primitive, h0, h1, hnone]
  · intro vm ctx s a b okTarget h0 h1 ha h2 hlen
    have hnone : vm.targets[b]? = Option.none := List.getElem?_eq_none hlen
    simp [step, VmState.next, VmState.next_primitive, h0, h1, ha, h2, hnone,
      Nat.add_assoc]
  · intro vm ctx s a b c okTarget errTarget h0 h1 ha h2 hb h3 hlen
    have hnone : vm.values[c]? = Option.none := List.getElem?_eq_none hlen
    simp [step, VmState.next, VmState.next_primitive, h0, h1, ha, h2, hb, h3, hnone,
      Nat.add_assoc]
  · intro vm ctx s n a b h0 h1 h2 h3 hlen
    have hnone : vm.fns[n]? = Option.none := List.getElem?_eq_none hlen
    simp [step, VmState.next, VmState.next_primitive, h0, h1, h2, h3, hnone,
      Nat.add_assoc]

/-- Witness for `out_of_range_slot_panics`: all six branches at concrete
containers — `SetPath(5)` and `GetPath(2)` over an empty target table,
`SetPathInfallible` with its ok slot, err slot, and default-constant slot
out of range in turn, and `Call` naming function slot 3 of an empty
function table. -/
theorem out_of_range_slot_panics_witness :
    step badSlotVm emptyCtx VmState.new = StepOutcome.panicked ∧
    step getPathBadSlotVm emptyCtx VmState.new = StepOutcome.panicked ∧
    step spiBadOkSlotVm emptyCtx VmState.new = StepOutcome.panicked ∧
    step spiBadErrSlotVm emptyCtx VmState.new = StepOutcome.panicked ∧
    step spiBadDefaultSlotVm emptyCtx VmState.new = StepOutcome.panicked ∧
    step callBadSlotVm emptyCtx VmState.new = StepOutcome.panicked :=
  ⟨out_of_range_slot_panics.1 badSlotVm emptyCtx VmState.new 5 rfl rfl (by decide),
   out_of_range_slot_panics.2.1 getPathBadSlotVm emptyCtx VmState.new 2 rfl rfl (by decide),
   out_of_range_slot_panics.2.2.1 spiBadOkSlotVm emptyCtx VmState.new 7 rfl rfl (by decide),
   out_of_range_slot_panics.2.2.2.1 spiBadErrSlotVm emptyCtx VmState.new 0 9
     (Variable.internal "ok" Option.none) rfl rfl rfl rfl (by decide),
   out_of_range_slot_panics.2.2.2.2.1 spiBadDefaultSlotVm emptyCtx VmState.new 0 0 9
     (Variable.internal "ok" Option.none) (Variable.internal "ok" Option.none)
     rfl rfl rfl rfl rfl rfl (by decide),
   out_of_range_slot_panics.2.2.2.2.2 callBadSlotVm emptyCtx VmState.new 3 0 0
     rfl rfl rfl rfl (by decide)⟩

theorem createObjectLoop_reaches_bad_key :
    ∀ (front : List (Value × Value)) (n : Nat) (acc : List (String × Value))
      (v k : Value) (rest : List Value),
      front.length < n →
      try_bytes k = Option.none →
      createObjectLoop n (stackOfPairs front ++ v :: k :: rest) acc =
        ObjLoopResult.panicked := by
  intro front
  induction front with
  | nil =>
    intro n acc v k rest hlen hk
    cases n with
    | zero => omega
    | succ m => simp [stackOfPairs, createObjectLoop, hk]
  | cons p ft ih =>
    intro n acc v k rest hlen hk
    cases n with
    | zero => omega
    | succ m =>
      obtain ⟨value, key⟩ := p
      have hlen' : ft.length < m := by
        simp only [List.length_cons] at hlen
        omega
      simp only [stackOfPairs, List.cons_append, createObjectLoop]
      cases hkey : try_bytes key with
      | none => rfl
      | some bk =>
        exact ih m (insertField acc (from_utf8_lossy bk) value) v k rest hlen' hk

/-- C10: during `CreateObject(n)`, if any of the `n` popped key values is
not a Bytes value, the interpreter panics (the `try_bytes().unwrap()` of
machine.rs line 332 aborts the process) instead of returning an error
value or setting the error register.  The non-Bytes key is the one of the
pair below the `front` pairs popped before it — `front` is arbitrary and
its position is within the first `n` pairs. -/
theorem create_object_non_bytes_key_panics :
    ∀ (vm : Vm) (ctx : Context) (s : VmState) (n : Nat)
      (front : List (Value × Value)) (v k : Value) (rest : List Value),
      vm.instructions[s.instruction_pointer]? =
        Option.some (Instruction.opcode OpCode.createObject) →
      vm.instructions[s.instruction_pointer + 1]? =
        Option.some (Instruction.primitive n) →
      s.stack = stackOfPairs front ++ v :: k :: rest →
      front.length < n →
      try_bytes k = Option.none →
      step vm ctx s = StepOutcome.panicked := by
  intro vm ctx s n front v k rest h0 h1 hs hlen hk
  have hloop := createObjectLoop_reaches_bad_key front n [] v k rest hlen hk
  simp [step, VmState.next, VmState.next_primitive, h0, h1, hs, hloop]

/-- Witness for `create_object_non_bytes_key_panics`: a `CreateObject(2)`
whose first popped pair `("x", 1)` is well formed and whose second popped
key is the integer 4. -/
theorem create_object_non_bytes_key_panics_witness :
    step createObjectTwoVm emptyCtx badSecondKeyState = StepOutcome.panicked :=
  create_object_non_bytes_key_panics createObjectTwoVm emptyCtx badSecondKeyState 2
    [(Value.integer 1, Value.bytes "x")] (Value.integer 3) (Value.integer 4) []
    rfl rfl rfl (by decide) rfl

end VectorSpec
